import Mathlib

/-!
# natural-sticky: verification of the scroll-driven positioning state machine

Shallow embedding of the two controllers of the `natural-sticky` package:

* `naturalStickyTop` (src/top.ts): a header anchored to the top viewport edge,
  with `snapEagerness`, `scrollThreshold` and the `isHeaderAtTop` anti-stall flag.
* `naturalStickyBottom` (the full-featured variant, with `snapEagerness`,
  `scrollThreshold` and the `isFooterAtBottom` anti-stall flag): a footer
  anchored to the bottom viewport edge.

Scroll offsets, element geometry and style offsets are modelled as rational
numbers; the controllers only compare and linearly combine them. Each
per-sample evaluation (`handleScroll`) is embedded as a pure function from
(configuration, freshly sampled geometry, previous state) to (next state,
action taken), where the state carries the element's inline style and the
action records which branch of the evaluation fired.
-/

/-- The value of the CSS `position` property as written by the controllers. -/
inductive CssPosition
  | sticky
  | relative
deriving DecidableEq, Repr

/-- A CSS length value written to `style.top` / `style.bottom`:
either a pixel value or the keyword `auto`. -/
inductive CssLength
  | px (value : ℚ)
  | auto
deriving DecidableEq, Repr

/-- The inline style slots of the target element that the controllers mutate.
`none` models a property that is unset (or was reset with the empty string). -/
structure ElemStyle where
  position : Option CssPosition
  top : Option CssLength
  bottom : Option CssLength
deriving DecidableEq, Repr

/-- Geometry sampled afresh on every scroll event: `window.scrollY`, the
element's bounding-client rect (`top`/`bottom`, viewport coordinates), the
element's `offsetHeight`, `window.innerHeight`, and
`document.documentElement.scrollHeight`. -/
structure Geometry where
  scrollY : ℚ
  rectTop : ℚ
  rectBottom : ℚ
  offsetHeight : ℚ
  innerHeight : ℚ
  scrollHeight : ℚ
deriving DecidableEq, Repr

/-- `elementRect.bottom > 0 && elementRect.top < window.innerHeight`. -/
def Geometry.isElementVisible (g : Geometry) : Prop :=
  g.rectBottom > 0 ∧ g.rectTop < g.innerHeight

instance (g : Geometry) : Decidable g.isElementVisible := by
  unfold Geometry.isElementVisible; infer_instance

/-- Configuration of either controller: `snapEagerness` (default 1) and
`scrollThreshold` (default 0). -/
structure StickyConfig where
  snapEagerness : ℚ
  scrollThreshold : ℚ
deriving DecidableEq, Repr

/-- Which branch of a per-sample evaluation fired. -/
inductive StepAction
  | snap      -- switch Relative → Sticky (predictive snap)
  | reveal    -- position just outside the viewport to scroll into view
  | snapBack  -- anti-stall: return to the natural flow position
  | release   -- switch Sticky → Relative
  | noChange
deriving DecidableEq, Repr

/-- Mutable state captured by `naturalStickyTop`'s closure, together with the
element's inline style (the only thing the controller mutates). -/
structure TopState where
  lastScrollY : ℚ
  isSticky : Bool
  isHeaderAtTop : Bool
  style : ElemStyle
deriving DecidableEq, Repr

/-- One scroll-sample evaluation of the top controller
(`handleScroll` in src/top.ts), returning the next state and the branch
that fired. -/
def handleScrollTop (cfg : StickyConfig) (g : Geometry) (s : TopState) :
    TopState × StepAction :=
  let currentScrollY := g.scrollY
  let scrollStep := currentScrollY - s.lastScrollY
  let step : TopState × StepAction :=
    if s.isSticky = false then
      if g.rectTop - cfg.snapEagerness * scrollStep ≥ 0 then
        ({ s with isSticky := true, isHeaderAtTop := false,
                  style := { s.style with position := some .sticky,
                                          top := some (.px 0) } }, .snap)
      else if -scrollStep ≥ cfg.scrollThreshold ∧ ¬ g.isElementVisible then
        ({ s with isHeaderAtTop := false,
                  style := { s.style with position := some .relative,
                                          top := some (.px (currentScrollY - g.offsetHeight)) } },
         .reveal)
      else if s.isHeaderAtTop = false ∧ ¬ g.isElementVisible then
        ({ s with isHeaderAtTop := true,
                  style := { s.style with position := some .relative,
                                          top := some (.px 0) } }, .snapBack)
      else (s, .noChange)
    else if scrollStep > 0 then
      ({ s with isSticky := false,
                style := { s.style with position := some .relative,
                                        top := some (.px currentScrollY) } }, .release)
    else (s, .noChange)
  ({ step.1 with lastScrollY := if currentScrollY > 0 then currentScrollY else 0 },
   step.2)

/-- Mutable state captured by `naturalStickyBottom`'s closure (full-featured
variant), together with the element's inline style. -/
structure BottomState where
  lastScrollY : ℚ
  isSticky : Bool
  isFooterAtBottom : Bool
  style : ElemStyle
deriving DecidableEq, Repr

/-- One scroll-sample evaluation of the bottom controller
(`handleScroll` in the full-featured `naturalStickyBottom`), returning the
next state and the branch that fired. -/
def handleScrollBottom (cfg : StickyConfig) (g : Geometry) (s : BottomState) :
    BottomState × StepAction :=
  let currentScrollY := g.scrollY
  let scrollStep := currentScrollY - s.lastScrollY
  let naturalFooterPosition := g.scrollHeight - g.offsetHeight
  let step : BottomState × StepAction :=
    if s.isSticky = false then
      if g.rectBottom - cfg.snapEagerness * scrollStep ≤ g.innerHeight then
        ({ s with isSticky := true, isFooterAtBottom := false,
                  style := { s.style with position := some .sticky,
                                          top := some .auto,
                                          bottom := some (.px 0) } }, .snap)
      else if scrollStep ≥ cfg.scrollThreshold ∧ ¬ g.isElementVisible then
        ({ s with isFooterAtBottom := false,
                  style := { s.style with position := some .relative,
                                          top := some (.px (currentScrollY + g.innerHeight -
                                                            naturalFooterPosition)) } },
         .reveal)
      else if s.isFooterAtBottom = false ∧ ¬ g.isElementVisible then
        ({ s with isFooterAtBottom := true,
                  style := { s.style with position := some .relative,
                                          top := some (.px 0) } }, .snapBack)
      else (s, .noChange)
    else if scrollStep < 0 then
      ({ s with isSticky := false,
                style := { s.style with position := some .relative,
                                        bottom := none,
                                        top := some (.px (g.rectTop + currentScrollY -
                                                          naturalFooterPosition)) } },
       .release)
    else (s, .noChange)
  ({ step.1 with lastScrollY := if currentScrollY > 0 then currentScrollY else 0 },
   step.2)

/-! ## Layout semantics (§6 collaborator contract)

Converting a flow position plus an explicit `top` offset to viewport
coordinates, and the screen position of a top-edge Sticky pin. -/

/-- Viewport-coordinate top of an element in document flow whose natural
document position is `natural`, with explicit `top` offset `offset`, at
scroll offset `y`. -/
def relativeScreenTop (natural offset y : ℚ) : ℚ := natural + offset - y

/-- Viewport-coordinate top of a top-edge Sticky pin: pinned to the viewport
top edge at offset `0`. -/
def stickyPinScreenTop : ℚ := 0

/-! ## Attachment, subscription and teardown

`naturalStickyTop` / `naturalStickyBottom` capture `window.scrollY`, run
`handleScroll` once, subscribe it to the scroll event, and return a handle
whose `destroy` unsubscribes. A controller value carries the subscription
flag (the DOM deduplicates identical listeners, so one boolean is exact)
and the closure state. -/

/-- A JavaScript runtime error surfaced by the embedding. -/
inductive JsError
  | typeError
deriving DecidableEq, Repr

/-- The argument actually passed to `attach*` at runtime: the JS `null`, or an
element that is either attached to the document or detached from it. -/
inductive TargetRef
  | null
  | element (detached : Bool)
deriving DecidableEq, Repr

/-- Geometry reported for a detached element: `getBoundingClientRect` returns
an all-zero rect and `offsetHeight` is `0`; the window/document quantities
are unaffected. -/
def degenerateGeometry (g : Geometry) : Geometry :=
  { g with rectTop := 0, rectBottom := 0, offsetHeight := 0 }

/-- Reading the per-sample geometry through a target reference: calling
`getBoundingClientRect` (src/top.ts line 40, src/bottom.ts line 35) on the
JS `null` throws a `TypeError`; a detached element yields degenerate
zero geometry; an attached element yields the live geometry. -/
def readTargetGeometry : TargetRef → Geometry → Except JsError Geometry
  | .null, _ => .error .typeError
  | .element true, g => .ok (degenerateGeometry g)
  | .element false, g => .ok g

/-- A live top controller: the scroll subscription flag plus the closure
state (which carries the element's inline style). -/
structure TopController where
  subscribed : Bool
  state : TopState
deriving DecidableEq, Repr

/-- A live bottom controller. -/
structure BottomController where
  subscribed : Bool
  state : BottomState
deriving DecidableEq, Repr

/-- `naturalStickyTop element options`: initialise the closure state
(`lastScrollY = window.scrollY`, Relative mode, `isHeaderAtTop = true`),
run `handleScroll` once — which on a `null` target faults at the
`getBoundingClientRect` call — and subscribe. `g0` is the geometry at
attach time and `st0` the element's initial inline style. -/
def naturalStickyTop (target : TargetRef) (cfg : StickyConfig) (g0 : Geometry)
    (st0 : ElemStyle) : Except JsError TopController :=
  match readTargetGeometry target g0 with
  | .error e => .error e
  | .ok g =>
      .ok { subscribed := true,
            state := (handleScrollTop cfg g
                        { lastScrollY := g0.scrollY, isSticky := false,
                          isHeaderAtTop := true, style := st0 }).1 }

/-- `naturalStickyBottom element options`, analogously. -/
def naturalStickyBottom (target : TargetRef) (cfg : StickyConfig) (g0 : Geometry)
    (st0 : ElemStyle) : Except JsError BottomController :=
  match readTargetGeometry target g0 with
  | .error e => .error e
  | .ok g =>
      .ok { subscribed := true,
            state := (handleScrollBottom cfg g
                        { lastScrollY := g0.scrollY, isSticky := false,
                          isFooterAtBottom := true, style := st0 }).1 }

/-- The handle's `destroy`: `window.removeEventListener('scroll', handleScroll)`. -/
def TopController.destroy (c : TopController) : TopController :=
  { c with subscribed := false }

/-- The handle's `destroy` for the bottom controller. -/
def BottomController.destroy (c : BottomController) : BottomController :=
  { c with subscribed := false }

/-- Delivery of one scroll event: the handler runs only while subscribed. -/
def deliverScrollTop (cfg : StickyConfig) (g : Geometry) (c : TopController) :
    TopController :=
  if c.subscribed then { c with state := (handleScrollTop cfg g c.state).1 } else c

/-- Delivery of one scroll event to the bottom controller. -/
def deliverScrollBottom (cfg : StickyConfig) (g : Geometry) (c : BottomController) :
    BottomController :=
  if c.subscribed then { c with state := (handleScrollBottom cfg g c.state).1 } else c

/-! ## Multi-sample runs -/

/-- State of the top controller after `n` scroll samples drawn from the
sample stream `geom`, starting from state `s0`. -/
def topRun (cfg : StickyConfig) (geom : ℕ → Geometry) (s0 : TopState) : ℕ → TopState
  | 0 => s0
  | n + 1 => (handleScrollTop cfg (geom n) (topRun cfg geom s0 n)).1

/-- State of the bottom controller after consuming a list of geometry
samples. -/
def bottomRunList (cfg : StickyConfig) (s0 : BottomState) (gs : List Geometry) :
    BottomState :=
  gs.foldl (fun s g => (handleScrollBottom cfg g s).1) s0

/-- Scroll samples with a constant per-sample delta `Δ` against an element
fixed in document flow: at sample `i` the scroll offset is `y0 + i·Δ` and the
element's rect top is `T0 − i·Δ` (its flow position is unchanged, so its
viewport position moves opposite to the scroll). -/
def topConstGeom (y0 Δ T0 h H : ℚ) (i : ℕ) : Geometry :=
  { scrollY := y0 + i * Δ, rectTop := T0 - i * Δ, rectBottom := T0 - i * Δ + h,
    offsetHeight := h, innerHeight := H, scrollHeight := 0 }

/-! ## Style-mode agreement (bottom controller) -/

/-- The bottom controller's edge-pinned style: `position: sticky`,
`top: auto`, `bottom: 0`. -/
def pinnedBottomStyle (st : ElemStyle) : Prop :=
  st.position = some .sticky ∧ st.top = some .auto ∧ st.bottom = some (.px 0)

/-- A flow style: not sticky-positioned, and no bottom pin set. (Covers both
an untouched element, which sits at its natural flow position, and an
explicit `position: relative` with a `top` offset.) -/
def flowStyle (st : ElemStyle) : Prop :=
  st.position ≠ some .sticky ∧ st.bottom = none

instance (st : ElemStyle) : Decidable (pinnedBottomStyle st) := by
  unfold pinnedBottomStyle; infer_instance

instance (st : ElemStyle) : Decidable (flowStyle st) := by
  unfold flowStyle; infer_instance

/-- The mode/style agreement invariant of the bottom controller. -/
def bottomInv (s : BottomState) : Prop :=
  (s.isSticky = true ↔ pinnedBottomStyle s.style) ∧
  (s.isSticky = false ↔ flowStyle s.style)

instance (s : BottomState) : Decidable (bottomInv s) := by
  unfold bottomInv; infer_instance

/-! ## Style-mode agreement (top controller) -/

/-- The top controller's edge-pinned style: `position: sticky`, `top: 0`. -/
def pinnedTopStyle (st : ElemStyle) : Prop :=
  st.position = some .sticky ∧ st.top = some (.px 0)

/-- A top-controller flow style: not sticky-positioned (an untouched element
or an explicit `position: relative` with a `top` offset). -/
def flowTopStyle (st : ElemStyle) : Prop :=
  st.position ≠ some .sticky

instance (st : ElemStyle) : Decidable (pinnedTopStyle st) := by
  unfold pinnedTopStyle; infer_instance

instance (st : ElemStyle) : Decidable (flowTopStyle st) := by
  unfold flowTopStyle; infer_instance

/-- The mode/style agreement invariant of the top controller. -/
def topInv (s : TopState) : Prop :=
  (s.isSticky = true ↔ pinnedTopStyle s.style) ∧
  (s.isSticky = false ↔ flowTopStyle s.style)

instance (s : TopState) : Decidable (topInv s) := by
  unfold topInv; infer_instance

/-- State of the top controller after consuming a list of geometry samples. -/
def topRunList (cfg : StickyConfig) (s0 : TopState) (gs : List Geometry) : TopState :=
  gs.foldl (fun s g => (handleScrollTop cfg g s).1) s0

/-- The constant-Δ run started from a Relative rest state (one sample's worth
of scroll history behind `y0`). -/
def topConstRun (e t y0 Δ T0 h H : ℚ) (st0 : ElemStyle) (n : ℕ) : TopState :=
  topRun ⟨e, t⟩ (topConstGeom y0 Δ T0 h H) ⟨y0 - Δ, false, true, st0⟩ n

/-- State before sample `i` of the constant-Δ run when no snap has
occurred yet. -/
def preSnapState (y0 Δ : ℚ) (st0 : ElemStyle) (i : ℕ) : TopState :=
  ⟨y0 + i * Δ - Δ, false, true, st0⟩

/-- State before sample `i` of the constant-Δ run after an earlier snap. -/
def snappedState (y0 Δ : ℚ) (st0 : ElemStyle) (i : ℕ) : TopState :=
  ⟨y0 + i * Δ - Δ, true, false, ⟨some .sticky, some (.px 0), st0.bottom⟩⟩

/-! ## Per-sample branch theorems -/

/-- C1: for the top controller in Relative mode, at every scroll sample where
`rect.top − snapEagerness·Δ ≥ 0` (with `Δ = scrollY − lastScrollOffset`), the
controller switches to Sticky at that very sample, pinning the element to the
top edge with offset 0; no other condition is consulted, so this check takes
first priority over the reveal and snap-back branches. -/
theorem top_predictive_snap (cfg : StickyConfig) (g : Geometry) (s : TopState)
    (hs : s.isSticky = false)
    (hsnap : g.rectTop - cfg.snapEagerness * (g.scrollY - s.lastScrollY) ≥ 0) :
    handleScrollTop cfg g s =
      ({ s with isSticky := true, isHeaderAtTop := false,
                style := { s.style with position := some .sticky, top := some (.px 0) },
                lastScrollY := if g.scrollY > 0 then g.scrollY else 0 }, .snap) := by
  simp only [handleScrollTop]
  rw [if_pos hs, if_pos hsnap]

/-- Witness for C1: a concrete Relative-mode sample satisfying the predictive
snap condition (`rect.top = 10`, `Δ = 5`, `snapEagerness = 1`) switches to
Sticky with the pinned style. -/
theorem top_predictive_snap_witness :
    ((⟨100, false, true, ⟨none, none, none⟩⟩ : TopState).isSticky = false) ∧
    ((⟨105, 10, 50, 40, 800, 3000⟩ : Geometry).rectTop -
       (⟨1, 0⟩ : StickyConfig).snapEagerness *
         ((⟨105, 10, 50, 40, 800, 3000⟩ : Geometry).scrollY -
          (⟨100, false, true, ⟨none, none, none⟩⟩ : TopState).lastScrollY) ≥ 0) ∧
    (handleScrollTop ⟨1, 0⟩ ⟨105, 10, 50, 40, 800, 3000⟩
        ⟨100, false, true, ⟨none, none, none⟩⟩ =
      (⟨105, true, false, ⟨some .sticky, some (.px 0), none⟩⟩, .snap)) := by
  refine ⟨rfl, by norm_num, ?_⟩
  have h := top_predictive_snap ⟨1, 0⟩ ⟨105, 10, 50, 40, 800, 3000⟩
      ⟨100, false, true, ⟨none, none, none⟩⟩ rfl (by norm_num)
  simpa using h

/-- C2: for the top controller, whenever mode is Sticky and `Δ > 0`
(scrolling down), the sample switches the element to Relative with flow-offset
exactly `y`; and for a header whose natural document position is the top of
the document, a flow-offset of `y` renders at the same screen position as the
top-edge Sticky pin (no pixel jump). -/
theorem top_release_continuity (cfg : StickyConfig) (g : Geometry) (s : TopState)
    (hs : s.isSticky = true)
    (hd : g.scrollY - s.lastScrollY > 0) :
    handleScrollTop cfg g s =
      ({ s with isSticky := false,
                style := { s.style with position := some .relative,
                                        top := some (.px g.scrollY) },
                lastScrollY := if g.scrollY > 0 then g.scrollY else 0 }, .release) ∧
    relativeScreenTop 0 g.scrollY g.scrollY = stickyPinScreenTop := by
  have hns : ¬ (s.isSticky = false) := by simp [hs]
  constructor
  · simp only [handleScrollTop]
    rw [if_neg hns, if_pos hd]
  · simp [relativeScreenTop, stickyPinScreenTop]

/-- Witness for C2: a concrete Sticky-mode sample with `Δ = 7 > 0` releases to
Relative with flow-offset `y = 207`, and the released flow-offset renders at
the pin's screen position. -/
theorem top_release_continuity_witness :
    ((⟨200, true, false, ⟨some .sticky, some (.px 0), none⟩⟩ : TopState).isSticky = true) ∧
    ((⟨207, 0, 40, 40, 800, 3000⟩ : Geometry).scrollY -
       (⟨200, true, false, ⟨some .sticky, some (.px 0), none⟩⟩ : TopState).lastScrollY > 0) ∧
    (handleScrollTop ⟨1, 0⟩ ⟨207, 0, 40, 40, 800, 3000⟩
        ⟨200, true, false, ⟨some .sticky, some (.px 0), none⟩⟩ =
      (⟨207, false, false, ⟨some .relative, some (.px 207), none⟩⟩, .release) ∧
     relativeScreenTop 0 207 207 = stickyPinScreenTop) := by
  refine ⟨rfl, by norm_num, ?_⟩
  have h := top_release_continuity ⟨1, 0⟩ ⟨207, 0, 40, 40, 800, 3000⟩
      ⟨200, true, false, ⟨some .sticky, some (.px 0), none⟩⟩ rfl (by norm_num)
  constructor
  · have h1 := h.1
    simpa using h1
  · exact h.2

/-- C3: for the bottom controller, whenever mode is Sticky and `Δ < 0`
(scrolling up), the sample switches to Relative, clears the bottom pin, and
sets the flow-offset to `(rect.top + y) − (documentScrollHeight − h)`; placing
the element at that flow-offset from its natural bottom-anchored position
`documentScrollHeight − h` renders it at screen position `rect.top`, exactly
where it was the instant before release. -/
theorem bottom_release_continuity (cfg : StickyConfig) (g : Geometry) (s : BottomState)
    (hs : s.isSticky = true)
    (hd : g.scrollY - s.lastScrollY < 0) :
    handleScrollBottom cfg g s =
      ({ s with isSticky := false,
                style := { s.style with position := some .relative,
                                        bottom := none,
                                        top := some (.px (g.rectTop + g.scrollY -
                                                          (g.scrollHeight - g.offsetHeight))) },
                lastScrollY := if g.scrollY > 0 then g.scrollY else 0 }, .release) ∧
    relativeScreenTop (g.scrollHeight - g.offsetHeight)
        (g.rectTop + g.scrollY - (g.scrollHeight - g.offsetHeight)) g.scrollY =
      g.rectTop := by
  have hns : ¬ (s.isSticky = false) := by simp [hs]
  constructor
  · simp only [handleScrollBottom]
    rw [if_neg hns, if_pos hd]
  · unfold relativeScreenTop; ring

/-- Witness for C3: the spec's bottom-release scenario (document height 3000,
viewport 800, element height 100, scroll 2150, `rect.top = 50`, `Δ = −30`)
releases with flow-offset `(50 + 2150) − 2900 = −700` and renders at screen
top 50. -/
theorem bottom_release_continuity_witness :
    ((⟨2180, true, false, ⟨some .sticky, some .auto, some (.px 0)⟩⟩ : BottomState).isSticky
        = true) ∧
    ((⟨2150, 50, 150, 100, 800, 3000⟩ : Geometry).scrollY -
       (⟨2180, true, false, ⟨some .sticky, some .auto, some (.px 0)⟩⟩ :
          BottomState).lastScrollY < 0) ∧
    (handleScrollBottom ⟨1, 0⟩ ⟨2150, 50, 150, 100, 800, 3000⟩
        ⟨2180, true, false, ⟨some .sticky, some .auto, some (.px 0)⟩⟩ =
      (⟨2150, false, false, ⟨some .relative, some (.px (-700)), none⟩⟩, .release) ∧
     relativeScreenTop 2900 (-700) 2150 = 50) := by
  refine ⟨rfl, by norm_num, ?_⟩
  have h := bottom_release_continuity ⟨1, 0⟩ ⟨2150, 50, 150, 100, 800, 3000⟩
      ⟨2180, true, false, ⟨some .sticky, some .auto, some (.px 0)⟩⟩ rfl (by norm_num)
  constructor
  · have h1 := h.1
    norm_num at h1 ⊢
    convert h1 using 3
  · have h2 := h.2
    norm_num at h2 ⊢
    convert h2 using 2

/-- C8: for the top controller in Relative mode, at a sample where the
predictive-snap condition fails, the upward scroll magnitude `−Δ` is at least
`scrollThreshold`, and the element is not visible (`rect.bottom ≤ 0` or
`rect.top ≥ H`), the element is placed in flow at offset `y − h` (just above
the viewport) and the at-rest flag is cleared. -/
theorem top_reveal_above_viewport (cfg : StickyConfig) (g : Geometry) (s : TopState)
    (hs : s.isSticky = false)
    (hsnap : g.rectTop - cfg.snapEagerness * (g.scrollY - s.lastScrollY) < 0)
    (hrev : -(g.scrollY - s.lastScrollY) ≥ cfg.scrollThreshold)
    (hinv : g.rectBottom ≤ 0 ∨ g.rectTop ≥ g.innerHeight) :
    handleScrollTop cfg g s =
      ({ s with isHeaderAtTop := false,
                style := { s.style with position := some .relative,
                                        top := some (.px (g.scrollY - g.offsetHeight)) },
                lastScrollY := if g.scrollY > 0 then g.scrollY else 0 }, .reveal) := by
  have hnsnap : ¬ (g.rectTop - cfg.snapEagerness * (g.scrollY - s.lastScrollY) ≥ 0) :=
    not_le.mpr hsnap
  have hnvis : ¬ g.isElementVisible := by
    rintro ⟨hb, ht⟩
    rcases hinv with h | h <;> linarith
  have hrv : -(g.scrollY - s.lastScrollY) ≥ cfg.scrollThreshold ∧
      ¬ g.isElementVisible := ⟨hrev, hnvis⟩
  simp only [handleScrollTop]
  rw [if_pos hs, if_neg hnsnap, if_pos hrv]

/-- Witness for C8: a concrete Relative-mode sample (element entirely above
the viewport, `Δ = −8`, threshold 5) positions the element at `y − h = 82`. -/
theorem top_reveal_above_viewport_witness :
    ((⟨100, false, false, ⟨some .relative, some (.px 30), none⟩⟩ : TopState).isSticky
        = false) ∧
    ((⟨92, -20, -10, 10, 800, 3000⟩ : Geometry).rectTop -
       (⟨1, 5⟩ : StickyConfig).snapEagerness *
         ((⟨92, -20, -10, 10, 800, 3000⟩ : Geometry).scrollY - (100 : ℚ)) < 0) ∧
    (-((⟨92, -20, -10, 10, 800, 3000⟩ : Geometry).scrollY - (100 : ℚ)) ≥
       (⟨1, 5⟩ : StickyConfig).scrollThreshold) ∧
    ((⟨92, -20, -10, 10, 800, 3000⟩ : Geometry).rectBottom ≤ 0 ∨
       (⟨92, -20, -10, 10, 800, 3000⟩ : Geometry).rectTop ≥
         (⟨92, -20, -10, 10, 800, 3000⟩ : Geometry).innerHeight) ∧
    (handleScrollTop ⟨1, 5⟩ ⟨92, -20, -10, 10, 800, 3000⟩
        ⟨100, false, false, ⟨some .relative, some (.px 30), none⟩⟩ =
      (⟨92, false, false, ⟨some .relative, some (.px 82), none⟩⟩, .reveal)) := by
  refine ⟨rfl, by norm_num, by norm_num, by norm_num, ?_⟩
  have h := top_reveal_above_viewport ⟨1, 5⟩ ⟨92, -20, -10, 10, 800, 3000⟩
      ⟨100, false, false, ⟨some .relative, some (.px 30), none⟩⟩ rfl
      (by norm_num) (by norm_num) (by norm_num)
  norm_num at h ⊢
  convert h using 3

/-- C9: for the top controller in Relative mode, at a sample where neither the
predictive snap (`rect.top − e·Δ < 0`) nor the reveal (`−Δ < scrollThreshold`)
applies, the element is not visible, and the at-rest flag is false, the
flow-offset is snapped back to `0` and the at-rest flag set; the resulting
state is exactly the snap-back update (no other branch touches state or
style at such a sample). -/
theorem top_snap_back_to_rest (cfg : StickyConfig) (g : Geometry) (s : TopState)
    (hs : s.isSticky = false)
    (hsnap : g.rectTop - cfg.snapEagerness * (g.scrollY - s.lastScrollY) < 0)
    (hslow : -(g.scrollY - s.lastScrollY) < cfg.scrollThreshold)
    (hinv : g.rectBottom ≤ 0 ∨ g.rectTop ≥ g.innerHeight)
    (hat : s.isHeaderAtTop = false) :
    handleScrollTop cfg g s =
      ({ s with isHeaderAtTop := true,
                style := { s.style with position := some .relative,
                                        top := some (.px 0) },
                lastScrollY := if g.scrollY > 0 then g.scrollY else 0 }, .snapBack) := by
  have hnsnap : ¬ (g.rectTop - cfg.snapEagerness * (g.scrollY - s.lastScrollY) ≥ 0) :=
    not_le.mpr hsnap
  have hnvis : ¬ g.isElementVisible := by
    rintro ⟨hb, ht⟩
    rcases hinv with h | h <;> linarith
  have hnrev : ¬ (-(g.scrollY - s.lastScrollY) ≥ cfg.scrollThreshold ∧
      ¬ g.isElementVisible) := by
    rintro ⟨h, -⟩
    linarith
  have hsb : s.isHeaderAtTop = false ∧ ¬ g.isElementVisible := ⟨hat, hnvis⟩
  simp only [handleScrollTop]
  rw [if_pos hs, if_neg hnsnap, if_neg hnrev, if_pos hsb]

/-- Witness for C9: a concrete slow upward sample (`Δ = −2`, threshold 5)
with the element invisible and not at rest snaps the flow-offset back to 0. -/
theorem top_snap_back_to_rest_witness :
    ((⟨100, false, false, ⟨some .relative, some (.px 88), none⟩⟩ : TopState).isSticky
        = false) ∧
    ((⟨98, -20, -10, 10, 800, 3000⟩ : Geometry).rectTop -
       (⟨1, 5⟩ : StickyConfig).snapEagerness *
         ((⟨98, -20, -10, 10, 800, 3000⟩ : Geometry).scrollY - (100 : ℚ)) < 0) ∧
    (-((⟨98, -20, -10, 10, 800, 3000⟩ : Geometry).scrollY - (100 : ℚ)) <
       (⟨1, 5⟩ : StickyConfig).scrollThreshold) ∧
    ((⟨98, -20, -10, 10, 800, 3000⟩ : Geometry).rectBottom ≤ 0 ∨
       (⟨98, -20, -10, 10, 800, 3000⟩ : Geometry).rectTop ≥
         (⟨98, -20, -10, 10, 800, 3000⟩ : Geometry).innerHeight) ∧
    ((⟨100, false, false, ⟨some .relative, some (.px 88), none⟩⟩ : TopState).isHeaderAtTop
        = false) ∧
    (handleScrollTop ⟨1, 5⟩ ⟨98, -20, -10, 10, 800, 3000⟩
        ⟨100, false, false, ⟨some .relative, some (.px 88), none⟩⟩ =
      (⟨98, false, true, ⟨some .relative, some (.px 0), none⟩⟩, .snapBack)) := by
  refine ⟨rfl, by norm_num, by norm_num, by norm_num, rfl, ?_⟩
  have h := top_snap_back_to_rest ⟨1, 5⟩ ⟨98, -20, -10, 10, 800, 3000⟩
      ⟨100, false, false, ⟨some .relative, some (.px 88), none⟩⟩ rfl
      (by norm_num) (by norm_num) (by norm_num) rfl
  norm_num at h ⊢
  convert h using 3

/-! ## Threshold gating -/

/-- C6: with `scrollThreshold = t > 0`, no top-controller sample with scroll
magnitude `|Δ| < t` fires the reveal branch; and the bottom controller's
reveal fires only when the downward scroll magnitude `Δ` is at least its
`scrollThreshold` and the element is not visible. -/
theorem threshold_gates_reveal :
    (∀ (cfg : StickyConfig) (g : Geometry) (s : TopState),
        0 < cfg.scrollThreshold →
        |g.scrollY - s.lastScrollY| < cfg.scrollThreshold →
        (handleScrollTop cfg g s).2 ≠ .reveal) ∧
    (∀ (cfg : StickyConfig) (g : Geometry) (s : BottomState),
        (handleScrollBottom cfg g s).2 = .reveal →
        g.scrollY - s.lastScrollY ≥ cfg.scrollThreshold ∧ ¬ g.isElementVisible) := by
  constructor
  · intro cfg g s ht hΔ
    have habs := abs_lt.mp hΔ
    have hnrev : ¬ (-(g.scrollY - s.lastScrollY) ≥ cfg.scrollThreshold ∧
        ¬ g.isElementVisible) := by
      rintro ⟨hr, -⟩
      linarith [habs.1]
    simp only [handleScrollTop]
    split_ifs <;> simp_all
  · intro cfg g s h
    simp only [handleScrollBottom] at h
    split_ifs at h with h1 h2 h3 h4
    all_goals simp_all

/-- Witness for C6: with threshold 10 a top sample with `Δ = −4` does not
reveal, and a concrete bottom reveal sample indeed has `Δ ≥ threshold` and an
invisible element. -/
theorem threshold_gates_reveal_witness :
    (0 < (⟨1, 10⟩ : StickyConfig).scrollThreshold) ∧
    (|(⟨96, 30, 70, 40, 800, 3000⟩ : Geometry).scrollY - (100 : ℚ)| <
       (⟨1, 10⟩ : StickyConfig).scrollThreshold) ∧
    ((handleScrollTop ⟨1, 10⟩ ⟨96, 30, 70, 40, 800, 3000⟩
        ⟨100, false, true, ⟨none, none, none⟩⟩).2 ≠ .reveal) ∧
    ((handleScrollBottom ⟨1, 0⟩ ⟨110, 900, 1000, 100, 800, 3000⟩
        ⟨100, false, true, ⟨none, none, none⟩⟩).2 = .reveal) ∧
    ((⟨110, 900, 1000, 100, 800, 3000⟩ : Geometry).scrollY - (100 : ℚ) ≥
        (⟨1, 0⟩ : StickyConfig).scrollThreshold ∧
      ¬ (⟨110, 900, 1000, 100, 800, 3000⟩ : Geometry).isElementVisible) := by
  have hrev : (handleScrollBottom ⟨1, 0⟩ ⟨110, 900, 1000, 100, 800, 3000⟩
      ⟨100, false, true, ⟨none, none, none⟩⟩).2 = .reveal := by
    norm_num [handleScrollBottom, Geometry.isElementVisible]
  refine ⟨by norm_num, by norm_num, ?_, hrev, ?_⟩
  · exact threshold_gates_reveal.1 ⟨1, 10⟩ ⟨96, 30, 70, 40, 800, 3000⟩
      ⟨100, false, true, ⟨none, none, none⟩⟩ (by norm_num) (by norm_num)
  · exact threshold_gates_reveal.2 ⟨1, 0⟩ ⟨110, 900, 1000, 100, 800, 3000⟩
      ⟨100, false, true, ⟨none, none, none⟩⟩ hrev

/-! ## Teardown -/

/-- After `destroy`, a delivered scroll sample is a no-op for the top
controller. -/
theorem deliverScrollTop_after_destroy (cfg : StickyConfig) (g : Geometry)
    (c : TopController) : deliverScrollTop cfg g c.destroy = c.destroy := by
  simp [deliverScrollTop, TopController.destroy]

/-- After `destroy`, a delivered scroll sample is a no-op for the bottom
controller. -/
theorem deliverScrollBottom_after_destroy (cfg : StickyConfig) (g : Geometry)
    (c : BottomController) : deliverScrollBottom cfg g c.destroy = c.destroy := by
  simp [deliverScrollBottom, BottomController.destroy]

/-- C10: `destroy()` is idempotent for both controllers, and after the first
`destroy()` any further stream of scroll samples leaves the controller — in
particular the element's style — completely unchanged. -/
theorem destroy_idempotent_no_mutation :
    (∀ c : TopController, c.destroy.destroy = c.destroy) ∧
    (∀ (cfg : StickyConfig) (c : TopController) (gs : List Geometry),
        gs.foldl (fun c g => deliverScrollTop cfg g c) c.destroy = c.destroy) ∧
    (∀ c : BottomController, c.destroy.destroy = c.destroy) ∧
    (∀ (cfg : StickyConfig) (c : BottomController) (gs : List Geometry),
        gs.foldl (fun c g => deliverScrollBottom cfg g c) c.destroy = c.destroy) := by
  refine ⟨fun c => rfl, fun cfg c gs => ?_, fun c => rfl, fun cfg c gs => ?_⟩
  · induction gs with
    | nil => rfl
    | cons g gs ih =>
        simpa [List.foldl, deliverScrollTop_after_destroy] using ih
  · induction gs with
    | nil => rfl
    | cons g gs ih =>
        simpa [List.foldl, deliverScrollBottom_after_destroy] using ih

/-! ## Invalid targets -/

/-- Counterexample to C7: constructing a controller on the JS `null` raises a
`TypeError` (the unguarded `getBoundingClientRect` call in the immediate
initial evaluation), for both `attachTop` and `attachBottom`, at a concrete
configuration. -/
theorem attach_null_raises :
    naturalStickyTop .null ⟨1, 0⟩ ⟨0, 500, 540, 40, 800, 3000⟩ ⟨none, none, none⟩ =
      .error .typeError ∧
    naturalStickyBottom .null ⟨1, 0⟩ ⟨0, 2900, 3000, 100, 800, 3000⟩ ⟨none, none, none⟩ =
      .error .typeError :=
  ⟨rfl, rfl⟩

/-- C7 (amended): constructing a controller on a *detached* element does not
raise — the geometry reads degrade to zero values — and the resulting
controller's `destroy()` is safe: idempotent, with no further effect on any
subsequent sample stream. (Passing the JS `null` instead raises a
`TypeError`.) -/
theorem attach_detached_degrades :
    (∀ (cfg : StickyConfig) (g0 : Geometry) (st0 : ElemStyle),
        ∃ c : TopController,
          naturalStickyTop (.element true) cfg g0 st0 = .ok c ∧
          c.destroy.destroy = c.destroy ∧
          ∀ gs : List Geometry,
            gs.foldl (fun c g => deliverScrollTop cfg g c) c.destroy = c.destroy) ∧
    (∀ (cfg : StickyConfig) (g0 : Geometry) (st0 : ElemStyle),
        ∃ c : BottomController,
          naturalStickyBottom (.element true) cfg g0 st0 = .ok c ∧
          c.destroy.destroy = c.destroy ∧
          ∀ gs : List Geometry,
            gs.foldl (fun c g => deliverScrollBottom cfg g c) c.destroy = c.destroy) := by
  constructor
  · intro cfg g0 st0
    refine ⟨_, rfl, rfl, fun gs => ?_⟩
    induction gs with
    | nil => rfl
    | cons g gs ih =>
        simpa [List.foldl, deliverScrollTop_after_destroy] using ih
  · intro cfg g0 st0
    refine ⟨_, rfl, rfl, fun gs => ?_⟩
    induction gs with
    | nil => rfl
    | cons g gs ih =>
        simpa [List.foldl, deliverScrollBottom_after_destroy] using ih

/-! ## Mode/style agreement -/

/-- One bottom-controller sample preserves the mode/style agreement
invariant. -/
theorem bottomInv_step (cfg : StickyConfig) (g : Geometry) (s : BottomState)
    (h : bottomInv s) : bottomInv (handleScrollBottom cfg g s).1 := by
  simp only [handleScrollBottom]
  split_ifs with h1 h2 h3 h4 <;>
    simp_all [bottomInv, pinnedBottomStyle, flowStyle]

/-- The invariant is preserved along any consumed sample list. -/
theorem bottomInv_run (cfg : StickyConfig) (s : BottomState) (gs : List Geometry)
    (h : bottomInv s) : bottomInv (bottomRunList cfg s gs) := by
  induction gs generalizing s with
  | nil => exact h
  | cons g gs ih => exact ih _ (bottomInv_step cfg g s h)

/-- One top-controller sample preserves the mode/style agreement
invariant. -/
theorem topInv_step (cfg : StickyConfig) (g : Geometry) (s : TopState)
    (h : topInv s) : topInv (handleScrollTop cfg g s).1 := by
  simp only [handleScrollTop]
  split_ifs with h1 h2 h3 h4 <;>
    simp_all [topInv, pinnedTopStyle, flowTopStyle]

/-- The top invariant is preserved along any consumed sample list. -/
theorem topInv_run (cfg : StickyConfig) (s : TopState) (gs : List Geometry)
    (h : topInv s) : topInv (topRunList cfg s gs) := by
  induction gs generalizing s with
  | nil => exact h
  | cons g gs ih => exact ih _ (topInv_step cfg g s h)

/-- C5: for every sample sequence delivered to a controller attached to a
clean element (no sticky positioning; for the bottom controller also no
bottom pin), the mode field and the element's live style agree at every
instant — Sticky mode holds exactly when the edge-pinned style is applied
(`position: sticky` with the anchored edge at offset `0`), Relative mode
exactly when a flow style is applied — and the bottom controller's mode
switches clear the other axis (`top` reset to `auto` on entering Sticky,
`bottom` cleared on leaving it), so no stale value lingers. -/
theorem mode_style_agreement :
    (∀ (cfg : StickyConfig) (g0 : Geometry) (st0 : ElemStyle) (c : TopController)
        (gs : List Geometry), flowTopStyle st0 →
        naturalStickyTop (.element false) cfg g0 st0 = .ok c →
        topInv (topRunList cfg c.state gs)) ∧
    (∀ (cfg : StickyConfig) (g0 : Geometry) (st0 : ElemStyle) (c : BottomController)
        (gs : List Geometry), flowStyle st0 →
        naturalStickyBottom (.element false) cfg g0 st0 = .ok c →
        bottomInv (bottomRunList cfg c.state gs)) := by
  constructor
  · intro cfg g0 st0 c gs h0 hc
    have hinit : topInv (⟨g0.scrollY, false, true, st0⟩ : TopState) := by
      refine ⟨⟨fun h => absurd h (by simp), fun hp => absurd hp.1 h0⟩,
        ⟨fun _ => h0, fun _ => rfl⟩⟩
    have hc' : c = { subscribed := true,
                     state := (handleScrollTop cfg g0
                                 ⟨g0.scrollY, false, true, st0⟩).1 } := by
      simpa [naturalStickyTop, readTargetGeometry] using hc.symm
    subst hc'
    exact topInv_run cfg _ gs (topInv_step cfg g0 _ hinit)
  · intro cfg g0 st0 c gs h0 hc
    have hinit : bottomInv (⟨g0.scrollY, false, true, st0⟩ : BottomState) := by
      refine ⟨⟨fun h => absurd h (by simp), fun hp => absurd hp.1 h0.1⟩,
        ⟨fun _ => h0, fun _ => rfl⟩⟩
    have hc' : c = { subscribed := true,
                     state := (handleScrollBottom cfg g0
                                 ⟨g0.scrollY, false, true, st0⟩).1 } := by
      simpa [naturalStickyBottom, readTargetGeometry] using hc.symm
    subst hc'
    exact bottomInv_run cfg _ gs (bottomInv_step cfg g0 _ hinit)

/-- Witness for C5: a concrete top controller (header visible below the top
edge: it snaps on the initial evaluation) and a concrete bottom controller
(footer below the viewport), each followed by one scroll sample, satisfy the
respective mode/style agreement invariants. -/
theorem mode_style_agreement_witness :
    flowTopStyle (⟨none, none, none⟩ : ElemStyle) ∧
    naturalStickyTop (.element false) ⟨1, 1⟩ ⟨0, 500, 540, 40, 800, 3000⟩
        ⟨none, none, none⟩ =
      .ok ⟨true, ⟨0, true, false, ⟨some .sticky, some (.px 0), none⟩⟩⟩ ∧
    topInv (topRunList ⟨1, 1⟩
      (⟨true, ⟨0, true, false, ⟨some .sticky, some (.px 0), none⟩⟩⟩ :
        TopController).state
      [⟨10, 490, 530, 40, 800, 3000⟩]) ∧
    flowStyle (⟨none, none, none⟩ : ElemStyle) ∧
    naturalStickyBottom (.element false) ⟨1, 1⟩ ⟨0, 900, 1000, 100, 800, 3000⟩
        ⟨none, none, none⟩ =
      .ok ⟨true, ⟨0, false, true, ⟨none, none, none⟩⟩⟩ ∧
    bottomInv (bottomRunList ⟨1, 1⟩
      (⟨true, ⟨0, false, true, ⟨none, none, none⟩⟩⟩ : BottomController).state
      [⟨10, 890, 990, 100, 800, 3000⟩]) := by
  have hct : naturalStickyTop (.element false) ⟨1, 1⟩ ⟨0, 500, 540, 40, 800, 3000⟩
      ⟨none, none, none⟩ =
      .ok ⟨true, ⟨0, true, false, ⟨some .sticky, some (.px 0), none⟩⟩⟩ := by
    norm_num [naturalStickyTop, readTargetGeometry, handleScrollTop,
      Geometry.isElementVisible]
  have hcb : naturalStickyBottom (.element false) ⟨1, 1⟩ ⟨0, 900, 1000, 100, 800, 3000⟩
      ⟨none, none, none⟩ =
      .ok ⟨true, ⟨0, false, true, ⟨none, none, none⟩⟩⟩ := by
    norm_num [naturalStickyBottom, readTargetGeometry, handleScrollBottom,
      Geometry.isElementVisible]
  refine ⟨by simp [flowTopStyle], hct, ?_, by simp [flowStyle], hcb, ?_⟩
  · exact mode_style_agreement.1 ⟨1, 1⟩ ⟨0, 500, 540, 40, 800, 3000⟩
      ⟨none, none, none⟩ _ _ (by simp [flowTopStyle]) hct
  · exact mode_style_agreement.2 ⟨1, 1⟩ ⟨0, 900, 1000, 100, 800, 3000⟩
      ⟨none, none, none⟩ _ _ (by simp [flowStyle]) hcb

/-! ## The predictive-snap instant under a constant scroll delta -/

/-- A Relative-mode sample on which no branch fires (snap condition fails, the
upward magnitude is below threshold, and the element is at rest): only
`lastScrollY` is updated. -/
theorem handleScrollTop_quiet (cfg : StickyConfig) (g : Geometry) (s : TopState)
    (hs : s.isSticky = false) (hat : s.isHeaderAtTop = true)
    (hsnap : g.rectTop - cfg.snapEagerness * (g.scrollY - s.lastScrollY) < 0)
    (hslow : -(g.scrollY - s.lastScrollY) < cfg.scrollThreshold) :
    handleScrollTop cfg g s =
      ({ s with lastScrollY := if g.scrollY > 0 then g.scrollY else 0 }, .noChange) := by
  have hnsnap : ¬ (g.rectTop - cfg.snapEagerness * (g.scrollY - s.lastScrollY) ≥ 0) :=
    not_le.mpr hsnap
  have hnrev : ¬ (-(g.scrollY - s.lastScrollY) ≥ cfg.scrollThreshold ∧
      ¬ g.isElementVisible) := by
    rintro ⟨hr, -⟩
    linarith
  have hnsb : ¬ (s.isHeaderAtTop = false ∧ ¬ g.isElementVisible) := by
    rintro ⟨hr, -⟩
    simp [hat] at hr
  simp only [handleScrollTop]
  rw [if_pos hs, if_neg hnsnap, if_neg hnrev, if_neg hnsb]

/-- A Sticky-mode sample with no downward motion: only `lastScrollY` is
updated. -/
theorem handleScrollTop_stickyHold (cfg : StickyConfig) (g : Geometry) (s : TopState)
    (hs : s.isSticky = true) (hd : ¬ (g.scrollY - s.lastScrollY > 0)) :
    handleScrollTop cfg g s =
      ({ s with lastScrollY := if g.scrollY > 0 then g.scrollY else 0 }, .noChange) := by
  have hns : ¬ (s.isSticky = false) := by simp [hs]
  simp only [handleScrollTop]
  rw [if_neg hns, if_neg hd]

/-- The snap branch, as a helper usable inside run proofs. -/
theorem handleScrollTop_snapStep (cfg : StickyConfig) (g : Geometry) (s : TopState)
    (hs : s.isSticky = false)
    (hsnap : g.rectTop - cfg.snapEagerness * (g.scrollY - s.lastScrollY) ≥ 0) :
    handleScrollTop cfg g s =
      ({ s with isSticky := true, isHeaderAtTop := false,
                style := { s.style with position := some .sticky, top := some (.px 0) },
                lastScrollY := if g.scrollY > 0 then g.scrollY else 0 }, .snap) := by
  simp only [handleScrollTop]
  rw [if_pos hs, if_pos hsnap]

/-- Exhaustive description of the constant-Δ run (scrolling upward, reveal
branch disabled by the threshold): before the first sample whose predicted
rect top is nonnegative the state is the untouched rest state, and from that
sample on it is the snapped state. -/
theorem topConstRun_cases (e t y0 Δ T0 h H : ℚ) (st0 : ElemStyle)
    (hΔ : Δ < 0) (ht : -Δ < t) :
    ∀ n : ℕ, (∀ j : ℕ, j < n → 0 < y0 + j * Δ) →
      (topConstRun e t y0 Δ T0 h H st0 n = preSnapState y0 Δ st0 n ∧
        ∀ j : ℕ, j < n → ¬ ((topConstGeom y0 Δ T0 h H j).rectTop - e * Δ ≥ 0)) ∨
      (topConstRun e t y0 Δ T0 h H st0 n = snappedState y0 Δ st0 n ∧
        ∃ j : ℕ, j < n ∧ (topConstGeom y0 Δ T0 h H j).rectTop - e * Δ ≥ 0) := by
  intro n
  induction n with
  | zero =>
      intro _
      left
      refine ⟨?_, fun j hj => absurd hj (Nat.not_lt_zero j)⟩
      simp [topConstRun, topRun, preSnapState]
  | succ n ih =>
      intro hy
      have hy' : ∀ j : ℕ, j < n → 0 < y0 + j * Δ :=
        fun j hj => hy j (Nat.lt_succ_of_lt hj)
      have hyn : 0 < y0 + n * Δ := hy n (Nat.lt_succ_self n)
      have hu : topConstRun e t y0 Δ T0 h H st0 (n + 1) =
          (handleScrollTop ⟨e, t⟩ (topConstGeom y0 Δ T0 h H n)
            (topConstRun e t y0 Δ T0 h H st0 n)).1 := rfl
      rcases ih hy' with ⟨hpre, hnone⟩ | ⟨hsnap, hex⟩
      · have hstep : (topConstGeom y0 Δ T0 h H n).scrollY -
            (preSnapState y0 Δ st0 n).lastScrollY = Δ := by
          simp only [topConstGeom, preSnapState]
          ring
        by_cases hc : (topConstGeom y0 Δ T0 h H n).rectTop - e * Δ ≥ 0
        · right
          have hsn : (topConstGeom y0 Δ T0 h H n).rectTop -
              e * ((topConstGeom y0 Δ T0 h H n).scrollY -
                   (preSnapState y0 Δ st0 n).lastScrollY) ≥ 0 := by
            rw [hstep]
            exact hc
          have h1 := handleScrollTop_snapStep ⟨e, t⟩ (topConstGeom y0 Δ T0 h H n)
            (preSnapState y0 Δ st0 n) rfl hsn
          refine ⟨?_, n, Nat.lt_succ_self n, hc⟩
          rw [hu, hpre, h1]
          simp only [topConstGeom]
          rw [if_pos hyn]
          simp only [preSnapState, snappedState, TopState.mk.injEq, ElemStyle.mk.injEq,
            and_true, true_and]
          push_cast
          ring
        · left
          have hsn : (topConstGeom y0 Δ T0 h H n).rectTop -
              e * ((topConstGeom y0 Δ T0 h H n).scrollY -
                   (preSnapState y0 Δ st0 n).lastScrollY) < 0 := by
            rw [hstep]
            exact not_le.mp hc
          have hsl : -((topConstGeom y0 Δ T0 h H n).scrollY -
              (preSnapState y0 Δ st0 n).lastScrollY) < t := by
            rw [hstep]
            exact ht
          have h1 := handleScrollTop_quiet ⟨e, t⟩ (topConstGeom y0 Δ T0 h H n)
            (preSnapState y0 Δ st0 n) rfl rfl hsn hsl
          constructor
          · rw [hu, hpre, h1]
            simp only [topConstGeom]
            rw [if_pos hyn]
            simp only [preSnapState, TopState.mk.injEq, and_true, true_and]
            push_cast
            ring
          · intro j hj
            rcases Nat.lt_succ_iff_lt_or_eq.mp hj with hj' | rfl
            · exact hnone j hj'
            · exact hc
      · right
        have hstep : (topConstGeom y0 Δ T0 h H n).scrollY -
            (snappedState y0 Δ st0 n).lastScrollY = Δ := by
          simp only [topConstGeom, snappedState]
          ring
        have hnd : ¬ ((topConstGeom y0 Δ T0 h H n).scrollY -
            (snappedState y0 Δ st0 n).lastScrollY > 0) := by
          rw [hstep]
          linarith
        have h1 := handleScrollTop_stickyHold ⟨e, t⟩ (topConstGeom y0 Δ T0 h H n)
          (snappedState y0 Δ st0 n) rfl hnd
        obtain ⟨j, hj, hcj⟩ := hex
        refine ⟨?_, j, Nat.lt_succ_of_lt hj, hcj⟩
        rw [hu, hsnap, h1]
        simp only [topConstGeom]
        rw [if_pos hyn]
        simp only [snappedState, TopState.mk.injEq, ElemStyle.mk.injEq,
          and_true, true_and]
        push_cast
        ring

/-- C4 (amended): under a constant per-sample delta `Δ < 0` (the upward ride
toward the top edge, with the reveal branch below threshold so the element
stays fixed in flow), the top controller is Sticky after `n` samples exactly
when some earlier sample satisfied `rect.top − e·Δ ≥ 0` — i.e. it enters
Sticky at the first sample where `rect.top − e·Δ ≥ 0`, and never at any
earlier sample. -/
theorem top_enters_sticky_first_crossing (e t y0 Δ T0 h H : ℚ) (st0 : ElemStyle)
    (n : ℕ) (hΔ : Δ < 0) (ht : -Δ < t)
    (hy : ∀ j : ℕ, j < n → 0 < y0 + j * Δ) :
    ((topConstRun e t y0 Δ T0 h H st0 n).isSticky = true ↔
      ∃ j : ℕ, j < n ∧ (topConstGeom y0 Δ T0 h H j).rectTop - e * Δ ≥ 0) := by
  rcases topConstRun_cases e t y0 Δ T0 h H st0 hΔ ht n hy with ⟨hpre, hnone⟩ |
    ⟨hsnap, hex⟩
  · rw [hpre]
    constructor
    · intro hst
      exact absurd hst (by simp [preSnapState])
    · rintro ⟨j, hj, hcj⟩
      exact absurd hcj (hnone j hj)
  · rw [hsnap]
    exact ⟨fun _ => hex, fun _ => rfl⟩

/-- Witness for C4 (amended): with `e = 1`, `Δ = −5`, threshold 6 and initial
rect top `−12`, the controller is Sticky after 3 samples, the first crossing
`rect.top − e·Δ ≥ 0` happening at sample 2 (`rect.top = −2`). -/
theorem top_enters_sticky_first_crossing_witness :
    ((-5 : ℚ) < 0) ∧ (-(-5 : ℚ) < 6) ∧
    (∀ j : ℕ, j < 3 → 0 < (100 : ℚ) + j * (-5)) ∧
    ((topConstRun 1 6 100 (-5) (-12) 10 800 ⟨none, none, none⟩ 3).isSticky = true ↔
      ∃ j : ℕ, j < 3 ∧ (topConstGeom 100 (-5) (-12) 10 800 j).rectTop - 1 * (-5) ≥ 0) := by
  refine ⟨by norm_num, by norm_num, ?_, ?_⟩
  · intro j hj
    interval_cases j <;> norm_num
  · exact top_enters_sticky_first_crossing 1 6 100 (-5) (-12) 10 800 ⟨none, none, none⟩ 3
      (by norm_num) (by norm_num) (by intro j hj; interval_cases j <;> norm_num)

/-- Counterexample to C4 as stated: in the same run (`e = 1`, `Δ = −5`,
threshold 6, rect top `−12` at sample 0), sample 0 satisfies the claimed
entry condition `rect.top ≤ e·Δ` (−12 ≤ −5) — and is trivially the first
such sample — yet the controller is not Sticky after processing it. -/
theorem top_snap_claimed_condition_refuted :
    ((topConstGeom 100 (-5) (-12) 10 800 0).rectTop ≤ 1 * (-5)) ∧
    (topConstRun 1 6 100 (-5) (-12) 10 800 ⟨none, none, none⟩ 1).isSticky = false := by
  constructor
  · norm_num [topConstGeom]
  · norm_num [topConstRun, topRun, topConstGeom, handleScrollTop,
      Geometry.isElementVisible]
